import Mathlib

/-!
Verification development for the user-account backend
(registration / activation / login / logout controllers).

The definitions below are a shallow embedding of the TypeScript sources:

* `src/project/server/models/user.model.ts` — `UserSchema`, `SignAccessToken`,
  `SignRefreshToken`, `comparePassword`, the pre-save bcrypt hashing hook;
* `src/project/server/controllers/user.controller.ts` — `registerUser`,
  `createActivationToken`, `activateUser`;
* `src/unnamed/part_001` — the controller variant holding `loginUser`,
  `logoutUser`, and a variant `createActivationToken`;
* `src/project/server/utils/jwt.ts` — `sendToken`.

External libraries are embedded by their observable contracts:

* `jsonwebtoken` (`jwt.sign` / `jwt.verify`): a signed token is a record of its
  payload, the secret used to sign it, and its optional `exp` claim (absent
  when `jwt.sign` is called without `expiresIn`).  `jwt.verify` checks the
  signature first (failure: `JsonWebTokenError`, message `invalid signature`)
  and then expiry (`TokenExpiredError`, message `jwt expired`, thrown when
  the clock timestamp is `≥ exp`).
* `bcryptjs`: hashing is embedded as a deterministic injective tagging
  function (the salt is abstracted away); `bcrypt.compare plain hash`
  holds exactly when `hash` is the hash of `plain`, which is the contract
  the controllers rely on.
* `Math.random()`: an arbitrary rational `q` with `0 ≤ q < 1`.
-/

/-- Environment variables read by the backend (`process.env`).  Where the code
itself supplies a fallback (`process.env.X || ""`, `parseInt(... || '300')`)
the field is an `Option`; `JWT_ACTIVATION_SECRET` is cast with `as Secret`
and is modelled as a present string. -/
structure Env where
  jwtActivationSecret : String
  jwtAccessToken : Option String
  jwtRefreshToken : Option String
  jwtAccessTokenExpiresTime : Option Nat
  jwtRefreshTokenExpiresTime : Option Nat
  nodeEnvProduction : Bool
deriving DecidableEq, Repr

/-- Errors raised by `jwt.verify`: bad signature (`JsonWebTokenError`) or
elapsed `exp` claim (`TokenExpiredError`). -/
inductive JwtError where
  | tokenInvalid
  | tokenExpired
deriving DecidableEq, Repr

/-- The `message` property of the corresponding `jsonwebtoken` error object,
as observed by the controllers' `catch (error) { ... error.message ... }`. -/
def jwtErrorMessage : JwtError → String
  | .tokenInvalid => "invalid signature"
  | .tokenExpired => "jwt expired"

/-- The `ErrorHandle` instances handed to `next(...)`
(`src/project/server/utils/ErrorHandle.ts`): a message plus a status code. -/
structure ErrorHandle where
  message : String
  statusCode : Nat
deriving DecidableEq, Repr

/-- A session JWT as produced by `UserSchema.methods.SignAccessToken` /
`SignRefreshToken`: payload `{ id: this._id }`, the signing secret, and the
`exp` claim (`none` when `jwt.sign` was given no `expiresIn` option). -/
structure SessionJwt where
  id : Nat
  secret : String
  exp : Option Nat
deriving DecidableEq, Repr

/-- Embedding of `UserSchema.methods.SignAccessToken` (user.model.ts:130):
`jwt.sign({ id: this._id }, process.env.JWT_ACCESS_TOKEN as Secret || "")`.
No `expiresIn` option is passed, so the token carries no `exp` claim. -/
def SignAccessToken (env : Env) (userId : Nat) : SessionJwt :=
  { id := userId, secret := env.jwtAccessToken.getD "", exp := none }

/-- Embedding of `UserSchema.methods.SignRefreshToken` (user.model.ts:140):
`jwt.sign({ id: this._id }, process.env.JWT_REFRESH_TOKEN as Secret || "")`.
No `expiresIn` option is passed, so the token carries no `exp` claim. -/
def SignRefreshToken (env : Env) (userId : Nat) : SessionJwt :=
  { id := userId, secret := env.jwtRefreshToken.getD "", exp := none }

/-- Embedding of `jwt.verify` applied to a session token: signature check
first, then the `exp` claim against the current clock (expired when
`now ≥ exp`); on success the payload's `id` is returned. -/
def jwtVerifySession (tok : SessionJwt) (secret : String) (now : Nat) :
    Except JwtError Nat :=
  if tok.secret ≠ secret then .error .tokenInvalid
  else
    match tok.exp with
    | some e => if e ≤ now then .error .tokenExpired else .ok tok.id
    | none => .ok tok.id

/-- The `IRegistrationBody` built by `registerUser` from the request body
(the optional `avatar` is never populated by the controller). -/
structure IRegistrationBody where
  name : String
  email : String
  password : String
deriving DecidableEq, Repr

/-- Activation code of `createActivationToken`
(user.controller.ts:109): `Math.floor(1000 + Math.random() * 9000)`,
with `Math.random()` embedded as a rational draw `q ∈ [0, 1)`. -/
def activationCodeNat (q : ℚ) : Nat := (Int.floor ((1000 : ℚ) + q * 9000)).toNat

/-- Activation code of the variant `createActivationToken`
(src/unnamed/part_001:74): `Math.floor(1000 + Math.random() * 9000 + 1)`. -/
def activationCodeNatVariant (q : ℚ) : Nat :=
  (Int.floor ((1000 : ℚ) + q * 9000 + 1)).toNat

/-- The activation JWT signed by `createActivationToken`:
`jwt.sign({ user, activationCode }, JWT_ACTIVATION_SECRET, { expiresIn: '10m' })`.
The `exp` claim is issuance time plus 600 seconds. -/
structure ActivationJwt where
  user : IRegistrationBody
  activationCode : String
  secret : String
  exp : Nat
deriving DecidableEq, Repr

/-- The `IActivationToken` record returned by `createActivationToken`:
the signed token together with the code, returned separately. -/
structure IActivationToken where
  token : ActivationJwt
  activationCode : String
deriving DecidableEq, Repr

/-- Embedding of `createActivationToken` (user.controller.ts:108-123):
draws a code, signs `{ user, activationCode }` with
`JWT_ACTIVATION_SECRET` and a 10-minute TTL, and returns both. -/
def createActivationToken (env : Env) (q : ℚ) (now : Nat)
    (user : IRegistrationBody) : IActivationToken :=
  let activationCode := Nat.repr (activationCodeNat q)
  { token := { user := user, activationCode := activationCode,
               secret := env.jwtActivationSecret, exp := now + 600 },
    activationCode := activationCode }

/-- Embedding of the variant `createActivationToken`
(src/unnamed/part_001:73-83): the code draw adds an extra `+ 1` inside the
floor, and the TTL comes from `JWT_ACTIVATION_EXPIRES_TIME`; only the code
draw matters for the claims, the TTL is taken as the same 600 seconds. -/
def createActivationTokenVariant (env : Env) (q : ℚ) (now : Nat)
    (user : IRegistrationBody) : IActivationToken :=
  let activationCode := Nat.repr (activationCodeNatVariant q)
  { token := { user := user, activationCode := activationCode,
               secret := env.jwtActivationSecret, exp := now + 600 },
    activationCode := activationCode }

/-- Embedding of `jwt.verify(activation_token, JWT_ACTIVATION_SECRET)` as
called by `activateUser`: signature first, then the `exp` claim (expired
when `now ≥ exp`); on success the decoded `{ user, activationCode }`. -/
def jwtVerifyActivation (tok : ActivationJwt) (secret : String) (now : Nat) :
    Except JwtError (IRegistrationBody × String) :=
  if tok.secret ≠ secret then .error .tokenInvalid
  else if tok.exp ≤ now then .error .tokenExpired
  else .ok (tok.user, tok.activationCode)

/-- Abstract embedding of `bcrypt.hash(password, 10)` as run by the
`UserSchema.pre('save')` hook (user.model.ts:114-118).  The salt is
abstracted into a deterministic tag; the properties the code relies on are
kept: the hash is never the plaintext, and `bcrypt.compare` recognises
exactly the hashed plaintext. -/
def bcryptHash (password : String) : String := "$2a$10$" ++ password

/-- Embedding of `UserSchema.methods.comparePassword`
(user.model.ts:154-156): `bcrypt.compare(password, this.password)`. -/
def comparePassword (password : String) (storedHash : String) : Bool :=
  storedHash == bcryptHash password

/-- A durable user document as created through `userModel.create` with the
`UserSchema` defaults (user.model.ts:65-102): `role` defaults to `"user"`,
`isVerified` defaults to `false`, and the pre-save hook replaces `password`
with its bcrypt hash.  `id` is the store-assigned `_id`. -/
structure UserRecord where
  id : Nat
  name : String
  email : String
  password : String
  role : String
  isVerified : Bool
deriving DecidableEq, Repr

/-- The Credential Store contents: the `User` collection. -/
abbrev UserDb := List UserRecord

/-- Embedding of `userModel.findOne({ email })`. -/
def findOneByEmail (db : UserDb) (email : String) : Option UserRecord :=
  db.find? (fun u => u.email == email)

/-- Embedding of `userModel.create({ name, email, password })`: the schema
defaults fill `role := "user"` and `isVerified := false`, the pre-save hook
hashes the password, and the store assigns a fresh `_id`. -/
def userCreate (db : UserDb) (name email password : String) :
    UserDb × UserRecord :=
  let u : UserRecord :=
    { id := db.length, name := name, email := email,
      password := bcryptHash password, role := "user", isVerified := false }
  (db ++ [u], u)

/-- A JSON success response: status code, `success` flag, `message`. -/
structure HttpResponse where
  status : Nat
  success : Bool
  message : String
deriving DecidableEq, Repr

/-- Embedding of `activateUser` (user.controller.ts:150-185).  Verifies the
activation token, rejects a mismatched code with
`ErrorHandle("Invalid activation code.", 400)`, rejects an existing email
with `ErrorHandle("Email already exists.", 400)`, otherwise creates the
user and answers 201; `jwt.verify` exceptions are caught and wrapped as
`ErrorHandle(error.message, 400)`. -/
def activateUser (env : Env) (now : Nat) (db : UserDb)
    (activation_token : ActivationJwt) (activation_code : String) :
    UserDb × Except ErrorHandle HttpResponse :=
  match jwtVerifyActivation activation_token env.jwtActivationSecret now with
  | .error e => (db, .error { message := jwtErrorMessage e, statusCode := 400 })
  | .ok newUser =>
    if newUser.2 ≠ activation_code then
      (db, .error { message := "Invalid activation code.", statusCode := 400 })
    else
      match findOneByEmail db newUser.1.email with
      | some _ =>
        (db, .error { message := "Email already exists.", statusCode := 400 })
      | none =>
        let created := userCreate db newUser.1.name newUser.1.email newUser.1.password
        (created.1,
         .ok { status := 201, success := true,
               message := "Account has been activated." })


/-- One outbound message handed to `sendMail` (sendMail.ts): recipient,
subject, template name, and the template data
`{ user: { name }, activationCode }` built by `registerUser`. -/
structure Mail where
  email : String
  subject : String
  template : String
  userName : String
  activationCode : String
deriving DecidableEq, Repr

/-- The 201 JSON body sent by `registerUser` on success: `success`,
`message`, and the activation token echoed back to the caller. -/
structure RegisterSuccess where
  status : Nat
  success : Bool
  message : String
  activationToken : ActivationJwt
deriving DecidableEq, Repr

/-- The success message of `registerUser`. -/
def registerMessage (email : String) : String :=
  "An email has been sent to " ++ email ++
    ". Please check your email to activate your account."

/-- Embedding of `registerUser` (user.controller.ts:38-89).  Rejects an
existing email with `ErrorHandle("Email already exists.", 400)`; otherwise
builds the `IRegistrationBody`, creates the activation token, and calls
`sendMail`.  The mail collaborator is embedded by its outcome `mailErr`
(`none` = delivered, `some msg` = `sendMail` threw an error with that
message, which the controller wraps as `ErrorHandle(msg, 400)`).  Returns
the store, the outbound-mail log, and the response. -/
def registerUser (env : Env) (q : ℚ) (now : Nat) (mailErr : Option String)
    (db : UserDb) (sent : List Mail) (name email password : String) :
    UserDb × List Mail × Except ErrorHandle RegisterSuccess :=
  match findOneByEmail db email with
  | some _ => (db, sent, .error { message := "Email already exists.", statusCode := 400 })
  | none =>
    let user : IRegistrationBody := { name := name, email := email, password := password }
    let activationToken := createActivationToken env q now user
    match mailErr with
    | some msg => (db, sent, .error { message := msg, statusCode := 400 })
    | none =>
      (db,
       sent ++ [{ email := user.email, subject := "Account Activation",
                  template := "activation-mail.ejs", userName := user.name,
                  activationCode := activationToken.activationCode }],
       .ok { status := 201, success := true,
             message := registerMessage user.email,
             activationToken := activationToken.token })

/-- The Session Cache (`redis`).  Modelled from the spec: the collaborator
behind `import { redis } from "./utils/redis"` is absent from the sources;
per the spec its contract is `set(userId, sessionSnapshotJSON)` with
last-write-wins overwrite per key. -/
abbrev SessionCache := List (Nat × String)

/-- Overwriting write into the Session Cache
(`redis.set(user._id, JSON.stringify(user))` in jwt.ts:47). -/
def redisSet (cache : SessionCache) (key : Nat) (value : String) : SessionCache :=
  (key, value) :: cache.filter (fun kv => kv.1 ≠ key)

/-- The session snapshot `JSON.stringify(user)` written to the cache.
Serialization is embedded as an injective rendering of the record. -/
def stringifyUser (u : UserRecord) : String :=
  "id:" ++ Nat.repr u.id ++ ";name:" ++ u.name ++ ";email:" ++ u.email ++
    ";role:" ++ u.role

/-- Cookie options (`ITokenOptions`, jwt.ts:25-31). -/
structure ITokenOptions where
  expires : Nat
  maxAge : Nat
  httpOnly : Bool
  sameSite : String
  secure : Option Bool
deriving DecidableEq, Repr

/-- The full effect of `sendToken` (jwt.ts:41-88): both signed tokens, the
updated Session Cache, the two cookies, and the JSON body. -/
structure SendTokenResult where
  cache : SessionCache
  accessCookie : SessionJwt × ITokenOptions
  refreshCookie : SessionJwt × ITokenOptions
  status : Nat
  success : Bool
  accessToken : SessionJwt
  user : UserRecord
deriving DecidableEq, Repr

/-- Embedding of `sendToken` (jwt.ts:41-88): signs the two session tokens,
writes the user snapshot into the cache, computes the cookie options with
`maxAge` defaulting to 300 s (access) and 1200 s (refresh) in milliseconds,
and answers with the access token and the user. -/
def sendToken (env : Env) (now : Nat) (user : UserRecord) (statusCode : Nat)
    (cache : SessionCache) : SendTokenResult :=
  let accessToken := SignAccessToken env user.id
  let refreshToken := SignRefreshToken env user.id
  let cache2 := redisSet cache user.id (stringifyUser user)
  let accessTokenExpire := env.jwtAccessTokenExpiresTime.getD 300
  let refreshTokenExpire := env.jwtRefreshTokenExpiresTime.getD 1200
  let accessTokenOptions : ITokenOptions :=
    { expires := now + accessTokenExpire * 1000,
      maxAge := accessTokenExpire * 1000, httpOnly := true, sameSite := "lax",
      secure := if env.nodeEnvProduction then some true else none }
  let refreshTokenOptions : ITokenOptions :=
    { expires := now + refreshTokenExpire * 1000,
      maxAge := refreshTokenExpire * 1000, httpOnly := true, sameSite := "lax",
      secure := none }
  { cache := cache2,
    accessCookie := (accessToken, accessTokenOptions),
    refreshCookie := (refreshToken, refreshTokenOptions),
    status := statusCode, success := true,
    accessToken := accessToken, user := user }

/-- Embedding of `loginUser` (src/unnamed/part_001:304-329).  A missing
field fails with `"Please enter email & password."`; an unknown email and a
non-matching password both fail with
`ErrorHandle("Invalid credentials.", 401)`; on success `sendToken` runs
with status 200. -/
def loginUser (env : Env) (now : Nat) (db : UserDb) (cache : SessionCache)
    (email password : String) :
    UserDb × SessionCache × Except ErrorHandle SendTokenResult :=
  if email = "" ∨ password = "" then
    (db, cache, .error { message := "Please enter email & password.", statusCode := 400 })
  else
    match findOneByEmail db email with
    | none => (db, cache, .error { message := "Invalid credentials.", statusCode := 401 })
    | some user =>
      if comparePassword password user.password then
        let r := sendToken env now user 200 cache
        (db, r.cache, .ok r)
      else
        (db, cache, .error { message := "Invalid credentials.", statusCode := 401 })

/-- The effect of `logoutUser` on the client: both cookies replaced by a
null value with `maxAge: 1` (milliseconds), plus the 200 JSON body. -/
structure LogoutResult where
  accessCookieValue : Option SessionJwt
  accessCookieMaxAge : Nat
  refreshCookieValue : Option SessionJwt
  refreshCookieMaxAge : Nat
  status : Nat
  success : Bool
  message : String
deriving DecidableEq, Repr

/-- Embedding of `logoutUser` (src/unnamed/part_001:340-358): overwrites the
`access_token` and `refresh_token` cookies with `null` and `maxAge: 1`, and
answers 200; the Credential Store and the Session Cache are passed through
untouched (the body performs no store, cache, or token operation). -/
def logoutUser (db : UserDb) (cache : SessionCache) :
    UserDb × SessionCache × LogoutResult :=
  (db, cache,
   { accessCookieValue := none, accessCookieMaxAge := 1,
     refreshCookieValue := none, refreshCookieMaxAge := 1,
     status := 200, success := true, message := "Logged out successfully." })

/-- A concrete environment with all three secrets configured and the TTL
variables unset (so the code's defaults apply). -/
def envA : Env :=
  { jwtActivationSecret := "activation-secret",
    jwtAccessToken := some "access-secret",
    jwtRefreshToken := some "refresh-secret",
    jwtAccessTokenExpiresTime := none,
    jwtRefreshTokenExpiresTime := none,
    nodeEnvProduction := false }

/-- A concrete pending registration. -/
def bodyAlice : IRegistrationBody :=
  { name := "Alice", email := "a@x.com", password := "secret1" }

/-- A concrete activation token for `bodyAlice`, signed with `envA`'s
activation secret at time 0 (so `exp = 600`) and embedding code `"4821"`. -/
def tokAlice : ActivationJwt :=
  { user := bodyAlice, activationCode := "4821",
    secret := "activation-secret", exp := 600 }

/-- C2 (counterexample): the claim says each session token carries its own
TTL (access defaulting to 300 s, refresh to 1200 s) and expires after it.
In the code, `SignAccessToken` and `SignRefreshToken` call `jwt.sign`
without any `expiresIn` option, so the tokens carry no `exp` claim at all:
a token issued at time 0 under `envA` still verifies at times 301 and 1201,
past the claimed TTLs, instead of failing as expired. -/
theorem session_token_never_expires_counterexample :
    (SignAccessToken envA 42).exp = none ∧
    jwtVerifySession (SignAccessToken envA 42) "access-secret" 301 = .ok 42 ∧
    (SignRefreshToken envA 42).exp = none ∧
    jwtVerifySession (SignRefreshToken envA 42) "refresh-secret" 1201 = .ok 42 :=
  ⟨rfl, rfl, rfl, rfl⟩

/-- C2 (amended): `SignAccessToken` and `SignRefreshToken` each produce a
signed token bound to the given userId with its own secret, but with no
expiry: the token verifies at every later time.  The 300-second and
1200-second defaults configure the `maxAge` of the cookies set by
`sendToken`, not any token TTL. -/
theorem session_tokens_bound_to_user_without_expiry (env : Env) (u : Nat) :
    (SignAccessToken env u).id = u ∧
    (SignAccessToken env u).secret = env.jwtAccessToken.getD "" ∧
    (SignAccessToken env u).exp = none ∧
    (SignRefreshToken env u).id = u ∧
    (SignRefreshToken env u).secret = env.jwtRefreshToken.getD "" ∧
    (SignRefreshToken env u).exp = none ∧
    (∀ now, jwtVerifySession (SignAccessToken env u)
      (env.jwtAccessToken.getD "") now = .ok u) ∧
    (∀ now, jwtVerifySession (SignRefreshToken env u)
      (env.jwtRefreshToken.getD "") now = .ok u) ∧
    (∀ now user cache,
      (sendToken env now user 200 cache).accessCookie.2.maxAge =
        env.jwtAccessTokenExpiresTime.getD 300 * 1000 ∧
      (sendToken env now user 200 cache).refreshCookie.2.maxAge =
        env.jwtRefreshTokenExpiresTime.getD 1200 * 1000) := by
  refine ⟨rfl, rfl, rfl, rfl, rfl, rfl, ?_, ?_, ?_⟩
  · intro now
    simp [jwtVerifySession, SignAccessToken]
  · intro now
    simp [jwtVerifySession, SignRefreshToken]
  · intro now user cache
    exact ⟨rfl, rfl⟩

/-- C3: the token issued by `SignAccessToken` verifies back to the same
userId under the access secret, and fails as `TokenInvalid` under the
refresh secret, provided the two configured secrets (after the code's
`|| ""` fallback) differ. -/
theorem access_token_roundtrip_cross_secret_fails (env : Env) (u : Nat)
    (now : Nat)
    (h : env.jwtAccessToken.getD "" ≠ env.jwtRefreshToken.getD "") :
    jwtVerifySession (SignAccessToken env u)
      (env.jwtAccessToken.getD "") now = .ok u ∧
    jwtVerifySession (SignAccessToken env u)
      (env.jwtRefreshToken.getD "") now = .error .tokenInvalid := by
  constructor
  · simp [jwtVerifySession, SignAccessToken]
  · simp [jwtVerifySession, SignAccessToken, h]

/-- C3 (witness): the round trip and the cross-secret failure at the
concrete environment `envA` and userId 7. -/
theorem access_token_roundtrip_cross_secret_fails_witness :
    jwtVerifySession (SignAccessToken envA 7)
      (envA.jwtAccessToken.getD "") 0 = .ok 7 ∧
    jwtVerifySession (SignAccessToken envA 7)
      (envA.jwtRefreshToken.getD "") 0 = .error .tokenInvalid :=
  access_token_roundtrip_cross_secret_fails envA 7 0 (by decide)

/-- C9: `logoutUser` leaves the Credential Store and Session Cache exactly
as they were, only replaces the client's two cookies with null values whose
`maxAge` is 1 ms, and answers 200; moreover no issued token is invalidated
server-side — any previously issued access token still verifies at every
later time. -/
theorem logout_leaves_server_state_unchanged (db : UserDb)
    (cache : SessionCache) :
    (logoutUser db cache).1 = db ∧
    (logoutUser db cache).2.1 = cache ∧
    (logoutUser db cache).2.2 =
      { accessCookieValue := none, accessCookieMaxAge := 1,
        refreshCookieValue := none, refreshCookieMaxAge := 1,
        status := 200, success := true,
        message := "Logged out successfully." } ∧
    (∀ env u now, jwtVerifySession (SignAccessToken env u)
      (env.jwtAccessToken.getD "") now = .ok u) := by
  refine ⟨rfl, rfl, rfl, ?_⟩
  intro env u now
  simp [jwtVerifySession, SignAccessToken]

/-- C1 (counterexample): the claim says a successful activation creates a
UserRecord whose `isVerified` field is true.  At a verifying token with a
matching code and a fresh email, `activateUser` answers 201 but calls
`userModel.create({ name, email, password })` without `isVerified`, so the
stored record has the schema default `isVerified = false`. -/
theorem activate_creates_unverified_counterexample :
    (activateUser envA 0 [] tokAlice "4821").2 =
      .ok { status := 201, success := true,
            message := "Account has been activated." } ∧
    ((activateUser envA 0 [] tokAlice "4821").1.map
      (fun u => u.isVerified)) = [false] :=
  ⟨rfl, rfl⟩

/-- C1 (amended): for every activation request whose token verifies, whose
submitted code equals the embedded one, and whose email is not yet in the
store, `activateUser` creates one durable UserRecord — with the submitted
name and email, a bcrypt password hash, the default role, and with the
`isVerified` field left at its schema default `false` (the code never sets
it to true) — and answers 201. -/
theorem activate_success_creates_user_unverified (env : Env) (now : Nat)
    (db : UserDb) (tok : ActivationJwt) (code : String)
    (hsec : tok.secret = env.jwtActivationSecret)
    (hexp : now < tok.exp)
    (hcode : tok.activationCode = code)
    (habsent : findOneByEmail db tok.user.email = none) :
    activateUser env now db tok code =
      (db ++ [{ id := db.length, name := tok.user.name,
                email := tok.user.email,
                password := bcryptHash tok.user.password,
                role := "user", isVerified := false }],
       .ok { status := 201, success := true,
             message := "Account has been activated." }) := by
  unfold activateUser jwtVerifyActivation
  simp [hsec, Nat.not_le.mpr hexp, hcode, habsent, userCreate]

/-- C1 (witness): the amended theorem at the concrete token `tokAlice`,
environment `envA`, time 0, and an empty store. -/
theorem activate_success_creates_user_unverified_witness :
    activateUser envA 0 [] tokAlice "4821" =
      ([{ id := 0, name := "Alice", email := "a@x.com",
          password := bcryptHash "secret1", role := "user",
          isVerified := false }],
       .ok { status := 201, success := true,
             message := "Account has been activated." }) :=
  activate_success_creates_user_unverified envA 0 [] tokAlice "4821"
    rfl (by decide) rfl rfl

/-- C4: when the activation token verifies but the submitted code differs
from the embedded one, `activateUser` fails with
`ErrorHandle("Invalid activation code.", 400)` and the store is returned
unchanged — the code-mismatch branch runs before any store lookup or
creation. -/
theorem activate_code_mismatch_rejected (env : Env) (now : Nat)
    (db : UserDb) (tok : ActivationJwt) (code : String)
    (hsec : tok.secret = env.jwtActivationSecret)
    (hexp : now < tok.exp)
    (hcode : tok.activationCode ≠ code) :
    activateUser env now db tok code =
      (db, .error { message := "Invalid activation code.",
                    statusCode := 400 }) := by
  unfold activateUser jwtVerifyActivation
  simp [hsec, Nat.not_le.mpr hexp, hcode]

/-- C4 (witness): a mismatched code `"0000"` against `tokAlice` (embedded
code `"4821"`) is rejected and the store stays empty. -/
theorem activate_code_mismatch_rejected_witness :
    activateUser envA 0 [] tokAlice "0000" =
      ([], .error { message := "Invalid activation code.",
                    statusCode := 400 }) :=
  activate_code_mismatch_rejected envA 0 [] tokAlice "0000"
    rfl (by decide) (by decide)

/-- C8: when the activation token's TTL has elapsed (`exp ≤ now`),
`activateUser` fails with the `TokenExpiredError` message `"jwt expired"`
wrapped as a 400 `ErrorHandle`, for every submitted code — matching or not
— and the store is returned unchanged: `jwt.verify` runs before the code
comparison, so expiry wins regardless of code correctness. -/
theorem activate_expired_token_rejected (env : Env) (now : Nat)
    (db : UserDb) (tok : ActivationJwt) (code : String)
    (hsec : tok.secret = env.jwtActivationSecret)
    (hexp : tok.exp ≤ now) :
    activateUser env now db tok code =
      (db, .error { message := "jwt expired", statusCode := 400 }) := by
  unfold activateUser jwtVerifyActivation
  simp [hsec, hexp, jwtErrorMessage]

/-- C8 (witness): at time 600 (exactly the `exp` of `tokAlice`), activation
fails as expired even though the submitted code `"4821"` matches the
embedded one, and the store stays empty. -/
theorem activate_expired_token_rejected_witness :
    activateUser envA 600 [] tokAlice "4821" =
      ([], .error { message := "jwt expired", statusCode := 400 }) :=
  activate_expired_token_rejected envA 600 [] tokAlice "4821"
    rfl (by decide)

/-- The decimal representation of a natural number in `[1000, 9999]` has
exactly 4 digits. -/
theorem digits_len_four (n : Nat) (h1 : 1000 ≤ n) (h2 : n ≤ 9999) :
    (Nat.digits 10 n).length = 4 := by
  rw [Nat.digits_len 10 n (by norm_num) (by omega)]
  rw [Nat.log_eq_of_pow_le_of_lt_pow (m := 3) (by norm_num; omega)
    (by norm_num; omega)]

/-- The largest IEEE double below 1, a possible return value of
`Math.random()`. -/
def maxRandomDraw : ℚ := (2 ^ 53 - 1) / 2 ^ 53

/-- At the draw `maxRandomDraw`, the variant code generator
`Math.floor(1000 + Math.random() * 9000 + 1)` lands on 10000. -/
theorem activationCodeNatVariant_maxRandomDraw :
    activationCodeNatVariant maxRandomDraw = 10000 := by
  norm_num [activationCodeNatVariant, maxRandomDraw]
  rfl

/-- C5 (counterexample): the claim says the activation code is a numeric
string of exactly 4 decimal digits (an integer in 1000..9999) for every
possible random draw.  The variant `createActivationToken`
(src/unnamed/part_001:73-83) computes
`Math.floor(1000 + Math.random() * 9000 + 1)`: at the admissible draw
`maxRandomDraw` (the largest double below 1) it produces the code
`"10000"` — the integer 10000, outside 1000..9999, whose decimal
representation has 5 digits, not 4. -/
theorem activation_code_variant_five_digits_counterexample :
    (0 ≤ maxRandomDraw ∧ maxRandomDraw < 1) ∧
    (createActivationTokenVariant envA maxRandomDraw 0
      bodyAlice).activationCode = "10000" ∧
    activationCodeNatVariant maxRandomDraw = 10000 ∧
    ¬ activationCodeNatVariant maxRandomDraw ≤ 9999 ∧
    (Nat.digits 10 (activationCodeNatVariant maxRandomDraw)).length = 5 := by
  refine ⟨⟨by norm_num [maxRandomDraw], by norm_num [maxRandomDraw]⟩, ?_, ?_, ?_, ?_⟩
  · show Nat.repr (activationCodeNatVariant maxRandomDraw) = "10000"
    rw [activationCodeNatVariant_maxRandomDraw]
    decide
  · exact activationCodeNatVariant_maxRandomDraw
  · rw [activationCodeNatVariant_maxRandomDraw]
    decide
  · rw [activationCodeNatVariant_maxRandomDraw]
    rw [Nat.digits_len 10 10000 (by norm_num) (by omega)]
    rw [Nat.log_eq_of_pow_le_of_lt_pow (m := 4) (by norm_num) (by norm_num)]

/-- C5 (amended): for every payload and every draw `q ∈ [0, 1)`, the
controller's `createActivationToken` (user.controller.ts:108-123) returns
a code that is an integer in 1000..9999 whose decimal representation has
exactly 4 digits, equal to the code embedded in the signed token, and the
draw is uniform — the preimage of each code `k` in 1000..9999 is the
half-open interval `[(k − 1000)/9000, (k − 999)/9000)`, all of equal
length 1/9000.  The variant generator (src/unnamed/part_001:73-83) instead
yields an integer in 1001..10000, so it can yield the 5-digit code 10000. -/
theorem activation_code_four_digit_uniform (env : Env) (q : ℚ) (now : Nat)
    (u : IRegistrationBody) (h0 : 0 ≤ q) (h1 : q < 1) :
    1000 ≤ activationCodeNat q ∧
    activationCodeNat q ≤ 9999 ∧
    (Nat.digits 10 (activationCodeNat q)).length = 4 ∧
    (createActivationToken env q now u).activationCode =
      Nat.repr (activationCodeNat q) ∧
    (createActivationToken env q now u).token.activationCode =
      (createActivationToken env q now u).activationCode ∧
    (∀ k : Nat, 1000 ≤ k → k ≤ 9999 →
      (activationCodeNat q = k ↔
        ((k : ℚ) - 1000) / 9000 ≤ q ∧ q < ((k : ℚ) - 999) / 9000)) ∧
    1001 ≤ activationCodeNatVariant q ∧
    activationCodeNatVariant q ≤ 10000 := by
  have hge : (1000 : ℤ) ≤ Int.floor ((1000 : ℚ) + q * 9000) := by
    apply Int.le_floor.mpr
    push_cast
    nlinarith
  have hlt : Int.floor ((1000 : ℚ) + q * 9000) < 10000 := by
    apply Int.floor_lt.mpr
    push_cast
    nlinarith
  have hrange : 1000 ≤ activationCodeNat q ∧ activationCodeNat q ≤ 9999 := by
    unfold activationCodeNat
    omega
  have hgeV : (1001 : ℤ) ≤ Int.floor ((1000 : ℚ) + q * 9000 + 1) := by
    apply Int.le_floor.mpr
    push_cast
    nlinarith
  have hltV : Int.floor ((1000 : ℚ) + q * 9000 + 1) < 10001 := by
    apply Int.floor_lt.mpr
    push_cast
    nlinarith
  refine ⟨hrange.1, hrange.2, digits_len_four _ hrange.1 hrange.2, rfl, rfl,
    ?_, ?_, ?_⟩
  · intro k hk1 hk2
    unfold activationCodeNat
    have key : (Int.floor ((1000 : ℚ) + q * 9000)).toNat = k ↔
        Int.floor ((1000 : ℚ) + q * 9000) = (k : ℤ) := by omega
    rw [key, Int.floor_eq_iff]
    constructor
    · rintro ⟨ha, hb⟩
      push_cast at ha hb
      constructor
      · rw [div_le_iff₀ (by norm_num)]
        linarith
      · rw [lt_div_iff₀ (by norm_num)]
        linarith
    · rintro ⟨ha, hb⟩
      rw [div_le_iff₀ (by norm_num)] at ha
      rw [lt_div_iff₀ (by norm_num)] at hb
      push_cast
      constructor <;> linarith
  · unfold activationCodeNatVariant
    omega
  · unfold activationCodeNatVariant
    omega

/-- C5 (witness): the amended theorem evaluated at the concrete draw
`1/2`: the code is 5500, inside 1000..9999. -/
theorem activation_code_four_digit_uniform_witness :
    1000 ≤ activationCodeNat (1 / 2) ∧ activationCodeNat (1 / 2) ≤ 9999 ∧
    (createActivationToken envA (1 / 2) 0 bodyAlice).activationCode =
      Nat.repr (activationCodeNat (1 / 2)) :=
  ⟨(activation_code_four_digit_uniform envA (1 / 2) 0 bodyAlice
      (by norm_num) (by norm_num)).1,
   (activation_code_four_digit_uniform envA (1 / 2) 0 bodyAlice
      (by norm_num) (by norm_num)).2.1,
   (activation_code_four_digit_uniform envA (1 / 2) 0 bodyAlice
      (by norm_num) (by norm_num)).2.2.2.1⟩

/-- A concrete stored user for the login witnesses: Bob, activated with
password `"hunter2"` (stored as its bcrypt hash). -/
def userBob : UserRecord :=
  { id := 0, name := "Bob", email := "b@x.com",
    password := bcryptHash "hunter2", role := "user", isVerified := false }

/-- C6 (counterexample): the claim quantifies over every pair of Login
requests — one with an absent email, one with a present email but a
non-matching password — and asserts both fail with the identical
`InvalidCredentials` message and status code.  An empty password is a
non-matching password, yet it hits the `!email || !password` guard
(src/unnamed/part_001:308-309) first: with only Bob in the store, the
absent-email login `("c@x.com", "x")` fails with
`"Invalid credentials."`/401 while the present-email login
`("b@x.com", "")` fails with `"Please enter email & password."`/400 — two
distinguishable outcomes. -/
theorem login_empty_password_distinguishable_counterexample :
    loginUser envA 0 [userBob] [] "c@x.com" "x" =
      ([userBob], [], .error { message := "Invalid credentials.",
                               statusCode := 401 }) ∧
    loginUser envA 0 [userBob] [] "b@x.com" "" =
      ([userBob], [], .error { message := "Please enter email & password.",
                               statusCode := 400 }) ∧
    loginUser envA 0 [userBob] [] "c@x.com" "x" ≠
      loginUser envA 0 [userBob] [] "b@x.com" "" := by
  have ha : loginUser envA 0 [userBob] [] "c@x.com" "x" =
      ([userBob], [], .error { message := "Invalid credentials.",
                               statusCode := 401 }) := rfl
  have hb : loginUser envA 0 [userBob] [] "b@x.com" "" =
      ([userBob], [], .error { message := "Please enter email & password.",
                               statusCode := 400 }) := rfl
  refine ⟨ha, hb, ?_⟩
  rw [ha, hb]
  simp

/-- C6 (amended): restricted to login requests whose email and password
fields are both nonempty (an empty field is caught earlier by the
`"Please enter email & password."`/400 guard), a login with an email
absent from the store and a login with a present email but a non-matching
password produce the very same outcome:
`ErrorHandle("Invalid credentials.", 401)` with the store and cache
untouched — those two failures are indistinguishable to the caller. -/
theorem login_failures_indistinguishable (env : Env) (now : Nat)
    (db : UserDb) (cache : SessionCache) (e1 p1 e2 p2 : String)
    (u : UserRecord)
    (he1 : e1 ≠ "") (hp1 : p1 ≠ "")
    (habsent : findOneByEmail db e1 = none)
    (he2 : e2 ≠ "") (hp2 : p2 ≠ "")
    (hfound : findOneByEmail db e2 = some u)
    (hpw : comparePassword p2 u.password = false) :
    loginUser env now db cache e1 p1 =
      (db, cache, .error { message := "Invalid credentials.",
                           statusCode := 401 }) ∧
    loginUser env now db cache e2 p2 =
      (db, cache, .error { message := "Invalid credentials.",
                           statusCode := 401 }) ∧
    loginUser env now db cache e1 p1 = loginUser env now db cache e2 p2 := by
  have h1 : loginUser env now db cache e1 p1 =
      (db, cache, .error { message := "Invalid credentials.",
                           statusCode := 401 }) := by
    unfold loginUser
    simp [he1, hp1, habsent]
  have h2 : loginUser env now db cache e2 p2 =
      (db, cache, .error { message := "Invalid credentials.",
                           statusCode := 401 }) := by
    unfold loginUser
    simp [he2, hp2, hfound, hpw]
  exact ⟨h1, h2, h1.trans h2.symm⟩

/-- C6 (witness): with only Bob in the store, logging in as unknown
`c@x.com` and logging in as Bob with the wrong password yield the
identical error. -/
theorem login_failures_indistinguishable_witness :
    loginUser envA 0 [userBob] [] "c@x.com" "whatever" =
      ([userBob], [], .error { message := "Invalid credentials.",
                               statusCode := 401 }) ∧
    loginUser envA 0 [userBob] [] "b@x.com" "wrong" =
      ([userBob], [], .error { message := "Invalid credentials.",
                               statusCode := 401 }) ∧
    loginUser envA 0 [userBob] [] "c@x.com" "whatever" =
      loginUser envA 0 [userBob] [] "b@x.com" "wrong" :=
  login_failures_indistinguishable envA 0 [userBob] [] "c@x.com" "whatever"
    "b@x.com" "wrong" userBob (by decide) (by decide) (by decide)
    (by decide) (by decide) (by decide) (by decide)

/-- C7: `registerUser` never mutates the Credential Store — on the
duplicate-email failure, on a delivery failure, and on success the store
comes back exactly as it went in; when the call succeeds the mail log has
grown by exactly the one activation mail, and when it fails the mail log
too is unchanged. -/
theorem register_leaves_store_unchanged (env : Env) (q : ℚ) (now : Nat)
    (mailErr : Option String) (db : UserDb) (sent : List Mail)
    (name email password : String) :
    (registerUser env q now mailErr db sent name email password).1 = db ∧
    ((registerUser env q now mailErr db sent name email
        password).2.2.isOk = true →
      (registerUser env q now mailErr db sent name email password).2.1 =
        sent ++ [{ email := email, subject := "Account Activation",
                   template := "activation-mail.ejs", userName := name,
                   activationCode := Nat.repr (activationCodeNat q) }]) ∧
    ((registerUser env q now mailErr db sent name email
        password).2.2.isOk = false →
      (registerUser env q now mailErr db sent name email password).2.1 =
        sent) := by
  unfold registerUser
  cases hfind : findOneByEmail db email <;>
    cases mailErr <;>
      simp [Except.isOk, Except.toBool, createActivationToken]

/-- C7 (witness): a concrete successful registration (fresh email, mail
delivered): the store stays empty and exactly one mail is logged. -/
theorem register_leaves_store_unchanged_witness :
    (registerUser envA (1 / 2) 0 none [] [] "Alice" "a@x.com"
      "secret1").1 = [] ∧
    (registerUser envA (1 / 2) 0 none [] [] "Alice" "a@x.com"
      "secret1").2.1 =
      [] ++ [{ email := "a@x.com", subject := "Account Activation",
               template := "activation-mail.ejs", userName := "Alice",
               activationCode := Nat.repr (activationCodeNat (1 / 2)) }] :=
  ⟨(register_leaves_store_unchanged envA (1 / 2) 0 none [] [] "Alice"
      "a@x.com" "secret1").1,
   (register_leaves_store_unchanged envA (1 / 2) 0 none [] [] "Alice"
      "a@x.com" "secret1").2.1 rfl⟩

/-- C10: a successful registration answers 201 with the activation token,
and that token's payload carries the pending registration verbatim — in
particular a `password` field equal to the submitted plaintext password
(the token is signed, not encrypted: its payload is readable by anyone
holding it). -/
theorem register_token_embeds_plaintext_password (env : Env) (q : ℚ)
    (now : Nat) (db : UserDb) (sent : List Mail)
    (name email password : String)
    (habsent : findOneByEmail db email = none) :
    (registerUser env q now none db sent name email password).2.2 =
      .ok { status := 201, success := true,
            message := registerMessage email,
            activationToken := (createActivationToken env q now
              { name := name, email := email,
                password := password }).token } ∧
    (createActivationToken env q now
      { name := name, email := email,
        password := password }).token.user.password = password := by
  constructor
  · unfold registerUser
    simp [habsent]
  · rfl

/-- C10 (witness): the concrete successful registration of Alice returns a
token whose payload password is the plaintext `"secret1"`. -/
theorem register_token_embeds_plaintext_password_witness :
    (registerUser envA (1 / 2) 0 none [] [] "Alice" "a@x.com"
      "secret1").2.2 =
      .ok { status := 201, success := true,
            message := registerMessage "a@x.com",
            activationToken := (createActivationToken envA (1 / 2) 0
              { name := "Alice", email := "a@x.com",
                password := "secret1" }).token } ∧
    (createActivationToken envA (1 / 2) 0
      { name := "Alice", email := "a@x.com",
        password := "secret1" }).token.user.password = "secret1" :=
  register_token_embeds_plaintext_password envA (1 / 2) 0 [] [] "Alice"
    "a@x.com" "secret1" rfl
